import Mathlib

/-!
Verification of the scoped capability-injection runtime-support library
(src/native-runtime/support/src/lib.rs).

The library exposes free functions (storage, read_storage, storage_into,
set_storage, chain_id) that resolve a per-thread slot holding a borrowed
reference to an Externalities trait object, installed for the dynamic
extent of a with_externalities call.

Embedding choices:
* Byte sequences are lists of naturals (no arithmetic is performed on
  bytes, so no overflow modelling is needed).
* The trait object Externalities<Error=NoError> is a record of operations
  over an abstract backing-store state type sigma; the mutating
  set_storage operation is state passing.
* The per-thread slot is an explicit Option sigma value threaded through
  the functions; the environmental crate (an external dependency of the
  repository) supplies the slot mechanism, so its with/using operations
  are modelled from the spec (sections 4.1 and 4.5).
* The generic parameter T of storage_into<T> is represented by its byte
  size together with its raw byte representation: the unchecked
  reinterpretation in the source is exactly a copy of the stored bytes
  into the result's memory, so a decoded value is modelled as the list of
  bytes that was copied (spec section 4.3 prescribes treating T as a
  plain fixed-layout aggregate of bytes).
-/

namespace Support

/-- Byte sequences (Rust Vec of u8 and u8 slices). -/
abbrev Bytes := List Nat

/-- The placeholder error type of the source: a fieldless unit struct. -/
inductive NoError : Type where
  | mk : NoError

/-- The Externalities trait object interface with Error fixed to NoError,
as selected by the environmental macro invocation in the source. The
backing-store state is an abstract type sigma; set_storage returns the
updated state. chain_id is a u64 in the source, modelled as Nat. -/
structure Externalities (σ : Type) where
  storage : σ → Bytes → Except NoError Bytes
  set_storage : σ → Bytes → Bytes → σ
  chain_id : σ → Nat

/-- Modelled from the spec: the with operation of the environmental macro
(external crate), section 4.1: current() returns the active reference or
none when the slot is empty; the library functions run their closure
against the active reference and obtain none when no capability is
active. The closure may mutate the externalities, so it is state
passing. -/
def ext_with {σ α : Type} (slot : Option σ) (f : σ → α × σ) :
    Option α × Option σ :=
  match slot with
  | none => (none, none)
  | some s => ((f s).1, some (f s).2)

/-- Modelled from the spec: the using operation of the environmental macro
(external crate), sections 4.1 and 4.5: install the capability, run the
computation against a slot holding it, and on exit restore the exact
pre-call slot content, discarding whatever the computation left in the
slot. The computation is a slot transformer so that nested scopes are
expressible. -/
def ext_using {Cap α : Type} (cap : Cap) (f : Option Cap → α × Option Cap)
    (slot : Option Cap) : α × Option Cap :=
  ((f (some cap)).1, slot)

/-- Modelled from the spec: variant of ext_using for computations that may
terminate abruptly (unwind), returning Except instead of a plain value.
Section 4.1: on guard disposal, normal return or unwind propagation, the
previous content is swapped back in regardless of how disposal occurs, so
the slot is restored even when the result is an error. -/
def ext_using_exn {Cap E α : Type} (cap : Cap)
    (f : Option Cap → Except E α × Option Cap) (slot : Option Cap) :
    Except E α × Option Cap :=
  ((f (some cap)).1, slot)

/-- Source lib.rs lines 105-107: with_externalities forwards to the using
operation of the environmental macro. -/
def with_externalities {Cap α : Type} (cap : Cap)
    (f : Option Cap → α × Option Cap) (slot : Option Cap) : α × Option Cap :=
  ext_using cap f slot

/-- Abrupt-termination-aware counterpart of with_externalities. -/
def with_externalities_exn {Cap E α : Type} (cap : Cap)
    (f : Option Cap → Except E α × Option Cap) (slot : Option Cap) :
    Except E α × Option Cap :=
  ext_using_exn cap f slot

/-- Source lib.rs lines 46-50: storage. The closure maps the lookup result
through ok().map(to_vec); the outer unwrap_or(None) collapses the absent
slot case and unwrap_or_else supplies the empty vector default. -/
def storage {σ : Type} (impl : Externalities σ) (slot : Option σ)
    (key : Bytes) : Bytes :=
  ((((ext_with slot (fun s => ((impl.storage s key).toOption, s))).1).getD
    none).getD [])

/-- Source lib.rs lines 52-62: read_storage. On a successful lookup it
copies min(len value, len value_out) bytes into the front of value_out
(copy_from_slice on the written prefix, the rest of the buffer untouched)
and returns the full stored length; on a lookup error the closure returns
0; on an absent slot unwrap_or(0) yields 0. The mutable buffer is
modelled by returning its post-call contents alongside the usize
result. -/
def read_storage {σ : Type} (impl : Externalities σ) (slot : Option σ)
    (key value_out : Bytes) : Nat × Bytes :=
  (((ext_with slot (fun s =>
    ((match impl.storage s key with
      | Except.ok value =>
        (value.length,
         value.take (min value.length value_out.length) ++
           value_out.drop (min value.length value_out.length))
      | Except.error _ => (0, value_out)), s))).1).getD (0, value_out))

/-- Source lib.rs lines 64-80: storage_into<T>. size is size_of::<T>();
when the lookup succeeds and the stored length equals size, the stored
bytes are copied verbatim into the uninitialized result of type T, so the
decoded value is modelled by the copied bytes themselves; every other
case yields None, with unwrap_or(None) handling the absent slot. -/
def storage_into {σ : Type} (impl : Externalities σ) (slot : Option σ)
    (size : Nat) (key : Bytes) : Option Bytes :=
  (((ext_with slot (fun s =>
    ((match impl.storage s key with
      | Except.ok value => if value.length = size then some value else none
      | Except.error _ => none), s))).1).getD none)

/-- Source lib.rs lines 82-86: set_storage forwards to the capability's
write operation inside ext_with; with no active capability the closure
never runs. The returned value is the post-call slot content. -/
def set_storage {σ : Type} (impl : Externalities σ) (slot : Option σ)
    (key value : Bytes) : Option σ :=
  (ext_with slot (fun s => ((), impl.set_storage s key value))).2

/-- Source lib.rs lines 89-93: chain_id, defaulting to 0 with no active
capability. -/
def chain_id {σ : Type} (impl : Externalities σ) (slot : Option σ) : Nat :=
  ((ext_with slot (fun s => (impl.chain_id s, s))).1).getD 0

/-- First-match lookup in an association list of key-value pairs. -/
def lookupA : List (Bytes × Bytes) → Bytes → Option Bytes
  | [], _ => none
  | p :: rest, key => if p.1 = key then some p.2 else lookupA rest key

/-- The TestExternalities implementation from the source's test module: a
map from keys to values where a lookup of an absent key succeeds with the
empty byte string, writes insert (newest binding wins), and chain_id is
the constant 42. The HashMap is modelled as an association list with
first-match lookup, insertion by prepending. -/
def TestExternalities : Externalities (List (Bytes × Bytes)) where
  storage s key := Except.ok ((lookupA s key).getD [])
  set_storage s key value := (key, value) :: s
  chain_id _ := 42

/-- An implementation whose storage lookups always report an error, as the
Externalities interface permits (NoError is inhabited). Used to witness
the error-path behaviour of the accessors. -/
def ErrExternalities : Externalities Unit where
  storage _ _ := Except.error NoError.mk
  set_storage s _ _ := s
  chain_id _ := 7

theorem lookupA_cons_self (s : List (Bytes × Bytes)) (k v : Bytes) :
    lookupA ((k, v) :: s) k = some v := by
  simp [lookupA]

/-- The backing store of TestExternalities stores what set_storage
forwards: reading back a just-written key succeeds with the written
value. -/
theorem testExternalities_roundtrip (s : List (Bytes × Bytes))
    (k v : Bytes) :
    TestExternalities.storage (TestExternalities.set_storage s k v) k =
      Except.ok v := by
  simp [TestExternalities, lookupA_cons_self]

/-- Characterisation of storage_into: it returns a decoded value exactly
when the slot is occupied and the lookup succeeds with bytes of exactly
the requested size, and the decoded value is byte for byte the stored
bytes. -/
theorem storage_into_eq_some_iff {σ : Type} (impl : Externalities σ)
    (slot : Option σ) (size : Nat) (k v : Bytes) :
    storage_into impl slot size k = some v ↔
      ∃ s, slot = some s ∧ impl.storage s k = Except.ok v ∧
        v.length = size := by
  cases slot with
  | none => simp [storage_into, ext_with]
  | some s =>
    simp only [storage_into, ext_with, Option.getD_some, Option.some.injEq]
    cases hs : impl.storage s k with
    | error e => simp [hs]
    | ok w =>
      by_cases hl : w.length = size
      · simp [hs, hl]
        rintro rfl
        exact hl
      · simp [hs, hl]
        rintro hw rfl
        cases hw; exact hl rfl

/-- C1: scopes nest stack-like. Running with_externalities A around a
computation that first runs with_externalities B g and then h, the slot
value at which g is evaluated is some B, the slot value at which h is
evaluated is some A (restored when the inner scope exits), and the outer
scope restores the original slot content on exit; slot transitions thus
mirror the entry and exit order of the scopes. -/
theorem c1_nested_scopes {Cap α β : Type} (A B : Cap)
    (g : Option Cap → α × Option Cap) (h : Option Cap → β × Option Cap)
    (slot : Option Cap) :
    with_externalities A (fun s =>
      let inner := with_externalities B g s
      let hr := h inner.2
      ((inner.1, hr.1), hr.2)) slot
    = (((g (some B)).1, (h (some A)).1), slot) := rfl

/-- C2: if the computation passed to the scope runner terminates abruptly
(its result is an error being propagated), the slot is still restored to
its exact pre-call state, and the abrupt result is propagated unchanged,
so any subsequent call on the same thread observes the pre-call slot
state. -/
theorem c2_restore_on_abrupt_termination {Cap E α : Type} (cap : Cap)
    (f : Option Cap → Except E α × Option Cap) (slot : Option Cap) (e : E)
    (habrupt : (f (some cap)).1 = Except.error e) :
    with_externalities_exn cap f slot = (Except.error e, slot) := by
  simp [with_externalities_exn, ext_using_exn, habrupt]

theorem c2_restore_on_abrupt_termination_witness :
    with_externalities_exn 7
      (fun _ => ((Except.error 0 : Except Nat Nat), (none : Option Nat)))
      (some 3) = (Except.error 0, some 3) :=
  c2_restore_on_abrupt_termination 7
    (fun _ => ((Except.error 0 : Except Nat Nat), (none : Option Nat)))
    (some 3) 0 rfl

/-- C3: within one active scope whose backing store stores what
set_storage forwards (reading back a just-written key succeeds with the
written value), set_storage k v followed by storage k returns exactly v,
byte for byte. -/
theorem c3_set_then_get {σ : Type} (impl : Externalities σ) (s : σ)
    (k v : Bytes)
    (hstore : ∀ st k v,
      impl.storage (impl.set_storage st k v) k = Except.ok v) :
    storage impl (set_storage impl (some s) k v) k = v := by
  simp [storage, set_storage, ext_with, hstore, Except.toOption]

theorem c3_set_then_get_witness :
    storage TestExternalities
      (set_storage TestExternalities (some []) [1, 2] [3, 4, 5]) [1, 2]
      = [3, 4, 5] :=
  c3_set_then_get TestExternalities [] [1, 2] [3, 4, 5]
    testExternalities_roundtrip

/-- C4: with an active capability whose lookup of the key succeeds with
stored value sv, read_storage returns the full stored length (not the
write count), and the post-call buffer is the first
min (length sv) (length buf) bytes of sv followed by the untouched
remainder of buf; the buffer's length is unchanged. -/
theorem c4_read_storage_copies_prefix {σ : Type} (impl : Externalities σ)
    (st : σ) (k sv buf : Bytes)
    (hlookup : impl.storage st k = Except.ok sv) :
    (read_storage impl (some st) k buf).1 = sv.length ∧
    (read_storage impl (some st) k buf).2 =
      sv.take (min sv.length buf.length) ++
        buf.drop (min sv.length buf.length) ∧
    ((read_storage impl (some st) k buf).2).length = buf.length := by
  have hr : read_storage impl (some st) k buf
      = (sv.length,
         sv.take (min sv.length buf.length) ++
           buf.drop (min sv.length buf.length)) := by
    simp [read_storage, ext_with, hlookup]
  refine ⟨by rw [hr], by rw [hr], ?_⟩
  rw [hr]
  simp only [List.length_append, List.length_take, List.length_drop]
  omega

theorem c4_read_storage_copies_prefix_witness :
    (read_storage TestExternalities (some [([1], [10, 20, 30])])
        [1] [0, 0]).1 = List.length [10, 20, 30] ∧
    (read_storage TestExternalities (some [([1], [10, 20, 30])])
        [1] [0, 0]).2 =
      List.take (min (List.length [10, 20, 30]) (List.length [0, 0]))
          [10, 20, 30] ++
        List.drop (min (List.length [10, 20, 30]) (List.length [0, 0]))
          [0, 0] ∧
    ((read_storage TestExternalities (some [([1], [10, 20, 30])])
        [1] [0, 0]).2).length = List.length [0, 0] :=
  c4_read_storage_copies_prefix TestExternalities [([1], [10, 20, 30])]
    [1] [10, 20, 30] [0, 0] rfl

/-- C5: storage_into at size (the byte size of T) returns a decoded value
if and only if the slot holds a capability whose lookup of the key
succeeds with bytes of exactly that length; the decoded value's byte
representation is exactly the stored bytes; in every other case (length
mismatch, lookup error, or no active capability) the result is none. -/
theorem c5_storage_into_exact_size {σ : Type} (impl : Externalities σ)
    (slot : Option σ) (size : Nat) (k v : Bytes) :
    storage_into impl slot size k = some v ↔
      ∃ s, slot = some s ∧ impl.storage s k = Except.ok v ∧
        v.length = size :=
  storage_into_eq_some_iff impl slot size k v

theorem c5_storage_into_exact_size_witness :
    storage_into TestExternalities (some [([1], [2, 3])]) 2 [1]
      = some [2, 3] :=
  (c5_storage_into_exact_size TestExternalities (some [([1], [2, 3])])
      2 [1] [2, 3]).mpr ⟨[([1], [2, 3])], rfl, rfl, rfl⟩

/-- C6: storage returns the empty byte sequence (and, being a total
function, never fails the caller) when no capability is active or when
the active capability's lookup reports an error; on a successful lookup
it returns exactly the stored bytes (a key absent in a backend is a
successful lookup of empty bytes and yields the empty sequence). -/
theorem c6_storage_defaults {σ : Type} (impl : Externalities σ)
    (k : Bytes) :
    storage impl none k = [] ∧
    (∀ s e, impl.storage s k = Except.error e →
      storage impl (some s) k = []) ∧
    (∀ s v, impl.storage s k = Except.ok v →
      storage impl (some s) k = v) := by
  refine ⟨rfl, ?_, ?_⟩
  · intro s e he
    simp [storage, ext_with, he, Except.toOption]
  · intro s v hv
    simp [storage, ext_with, hv, Except.toOption]

theorem c6_storage_defaults_witness :
    storage TestExternalities none [9] = [] ∧
    storage ErrExternalities (some ()) [9] = [] ∧
    storage TestExternalities (some [([9], [4])]) [9] = [4] :=
  ⟨(c6_storage_defaults TestExternalities [9]).1,
   (c6_storage_defaults ErrExternalities [9]).2.1 () NoError.mk rfl,
   (c6_storage_defaults TestExternalities [9]).2.2 [([9], [4])] [4] rfl⟩

/-- C7: set_storage with no active capability is a silent no-op: it is a
total function (raises nothing, returns normally), the slot, which
carries all observable storage state, is left exactly as it was (empty),
and a subsequent read still observes the empty default, so the dropped
write has no observable effect. -/
theorem c7_set_storage_noop_without_scope {σ : Type}
    (impl : Externalities σ) (k v : Bytes) :
    set_storage impl none k v = none ∧
    storage impl (set_storage impl none k v) k = [] := ⟨rfl, rfl⟩

/-- C8: chain_id returns 0 when no capability is active, and returns the
active capability's chain_id value (a u64 in the source, modelled as a
natural number) when one is active. -/
theorem c8_chain_id_spec {σ : Type} (impl : Externalities σ) :
    chain_id impl none = 0 ∧
    ∀ s, chain_id impl (some s) = impl.chain_id s :=
  ⟨rfl, fun _ => rfl⟩

/-- C9 counterexample: with the test capability active and one byte
stored under the key, the capability's lookup of the key succeeds, yet
storage_into at size 0 (a zero-sized type) returns none, because the
length check compares the stored length to 0 rather than holding
trivially; this refutes the claim that for zero-sized types a successful
lookup always yields a decoded value. -/
theorem c9_zero_size_counterexample :
    TestExternalities.storage [([5], [1])] [5] = Except.ok [1] ∧
    storage_into TestExternalities (some [([5], [1])]) 0 [5] = none :=
  ⟨rfl, rfl⟩

/-- C9 amended: for a zero-sized type (size 0), storage_into returns a
decoded value exactly when a capability is active and its lookup of the
key succeeds with empty bytes, which includes an absent key under
backends that report absence as empty bytes; it returns none when no
capability is active, the lookup errors, or the stored bytes are
nonempty. -/
theorem c9_storage_into_zero_size {σ : Type} (impl : Externalities σ)
    (slot : Option σ) (k v : Bytes) :
    storage_into impl slot 0 k = some v ↔
      ∃ s, slot = some s ∧ impl.storage s k = Except.ok [] ∧ v = [] := by
  rw [storage_into_eq_some_iff]
  constructor
  · rintro ⟨s, hs, hv, hlen⟩
    rcases List.length_eq_zero.mp hlen with rfl
    exact ⟨s, hs, hv, rfl⟩
  · rintro ⟨s, hs, hv, rfl⟩
    exact ⟨s, hs, hv, rfl⟩

theorem c9_storage_into_zero_size_witness :
    storage_into TestExternalities (some []) 0 [7] = some [] :=
  (c9_storage_into_zero_size TestExternalities (some []) [7] []).mpr
    ⟨[], rfl, rfl, rfl⟩

/-- C10: when no capability is active, or the active capability's lookup
of the key reports an error, read_storage returns 0 and the buffer is
returned exactly as it was passed in: no byte of it is written. -/
theorem c10_read_storage_frame {σ : Type} (impl : Externalities σ)
    (slot : Option σ) (k buf : Bytes)
    (hfail : slot = none ∨
      ∃ s, slot = some s ∧ ∃ e, impl.storage s k = Except.error e) :
    read_storage impl slot k buf = (0, buf) := by
  rcases hfail with rfl | ⟨s, rfl, e, he⟩
  · rfl
  · simp [read_storage, ext_with, he]

theorem c10_read_storage_frame_witness :
    read_storage ErrExternalities (some ()) [1] [9, 9] = (0, [9, 9]) :=
  c10_read_storage_frame ErrExternalities (some ()) [1] [9, 9]
    (Or.inr ⟨(), rfl, NoError.mk, rfl⟩)

end Support
